import Mathlib

/-!
Verification development for the gameplay core of the CGProject action game:
enemy behavior state machine (src/entities/Enemy.js), shared health model
(src/entities/Character.js) and combat resolution loop
(src/systems/CombatSystem.js).

Numbers are modelled as exact rationals.  Calls into the host math library
(Math.sqrt via THREE.Vector3.length, Math.atan2) are modelled by passing the
library as an explicit parameter, so every definition stays computable; for
concrete evaluations we instantiate it with an exact square root on
perfect-square inputs.
-/

namespace CG

/-- Model of THREE.Vector3: a triple of rational coordinates. -/
structure Vec3 where
  x : ℚ
  y : ℚ
  z : ℚ
  deriving DecidableEq, Repr

namespace Vec3

/-- Componentwise subtraction, as in Vector3.subVectors(a, b). -/
def sub (a b : Vec3) : Vec3 := ⟨a.x - b.x, a.y - b.y, a.z - b.z⟩

/-- Squared Euclidean norm, as in Vector3.lengthSq(). -/
def normSq (v : Vec3) : ℚ := v.x ^ 2 + v.y ^ 2 + v.z ^ 2

end Vec3

/-- Host math library surface used by the code: Math.sqrt (through
Vector3.length and Vector3.normalize) and Math.atan2.  Passed explicitly so
the embedding stays computable. -/
structure MathLib where
  sqrt : ℚ → ℚ
  atan2 : ℚ → ℚ → ℚ

/-- Integer square root by exhaustive search (kernel-reducible, for closed
evaluations on small inputs). -/
def intSqrt (n : Nat) : Nat :=
  ((List.range (n + 1)).filter (fun k => k * k ≤ n)).foldr max 0

/-- Exact square root on rationals whose numerator and denominator are
perfect squares (used to evaluate concrete scenarios; agrees with Math.sqrt
there). -/
def ratSqrt (q : ℚ) : ℚ := (intSqrt q.num.toNat : ℚ) / (intSqrt q.den : ℚ)

/-- Concrete math library instance for closed evaluations.  The atan2
component is an arbitrary computable stand-in; theorems about facing
quantify over the library. -/
def demoMath : MathLib := ⟨ratSqrt, fun dx dz => dx + dz⟩

/-- Enemy state machine states (Enemy.js `state` field). -/
inductive EState where
  | idle
  | chase
  | attack
  | hit
  | death
  deriving DecidableEq, Repr

/-- Model of the currently playing animation action (THREE.AnimationAction):
clip name, elapsed clip time, clip duration, effective time scale and loop
flag.  Loop wrap/clamp behavior of the external mixer is not tracked; no
claim reads absolute times across a loop boundary. -/
structure ActionState where
  name : String
  time : ℚ
  duration : ℚ
  timeScale : ℚ
  loop : Bool
  deriving DecidableEq, Repr

/-- State of an Enemy (src/entities/Enemy.js): the per-enemy tunables fixed
by the constructor and every field mutated by update/takeDamage/die.
`hasSound` models whether a soundSystem was supplied; `hasHitBox` whether the
named hitBox node was found at model load. -/
structure EnemyState where
  maxHp : ℚ
  hp : ℚ
  moveSpeed : ℚ
  chaseRange : ℚ
  attackRange : ℚ
  attackDamage : ℚ
  attackCooldown : ℚ
  radius : ℚ
  groundY : ℚ
  state : EState
  isDying : Bool
  spawnTime : ℚ
  spawnDelay : ℚ
  previousState : EState
  isAttackActive : Bool
  attackSoundPlayed : Bool
  attackStarted : Bool
  hasSound : Bool
  isModelLoaded : Bool
  pos : Vec3
  rotY : ℚ
  currentAction : Option ActionState
  hasHitBox : Bool
  deriving DecidableEq, Repr

namespace Enemy

/-- Enemy.isDead() override: always returns false while the death animation
plays (removal happens only after the death callback). -/
def isDead (_e : EnemyState) : Bool := false

/-- Effective time scale chosen by Enemy.playAnimation: Hit plays at 1.5x,
Death at 1.3x, every other clip at 1.8x. -/
def timeScaleFor (name : String) : ℚ :=
  if name = "Hit" then 3/2 else if name = "Death" then 13/10 else 9/5

/-- Enemy.playAnimation(name, loop): no-op before the model has loaded or
when the requested action is already current; otherwise resets and plays the
named clip (Hit and Death are forced one-shot).  `dur` gives each clip's
duration (asset data). -/
def playAnimation (dur : String → ℚ) (name : String) (loop : Bool)
    (e : EnemyState) : EnemyState :=
  if ¬ e.isModelLoaded then e
  else
    match e.currentAction with
    | some a =>
      if a.name = name then e
      else
        { e with currentAction := some ⟨name, 0, dur name, timeScaleFor name,
            if name = "Hit" ∨ name = "Death" then false else loop⟩ }
    | none =>
      { e with currentAction := some ⟨name, 0, dur name, timeScaleFor name,
          if name = "Hit" ∨ name = "Death" then false else loop⟩ }

/-- Enemy.die(): begin the death sequence, only once and only when the model
has loaded (the guard in the source). -/
def die (dur : String → ℚ) (e : EnemyState) : EnemyState :=
  if ¬ e.isDying ∧ e.isModelLoaded then
    playAnimation dur "Death" false { e with isDying := true, state := .death }
  else e

/-- Enemy.takeDamage(amount): ignored while dying; otherwise clamps hp at 0,
dies at 0 hp, else interrupts into the hit state and plays the Hit clip. -/
def takeDamage (dur : String → ℚ) (amount : ℚ) (e : EnemyState) : EnemyState :=
  if e.isDying then e
  else
    let e1 : EnemyState := { e with hp := max 0 (e.hp - amount) }
    if e1.hp ≤ 0 then die dur e1
    else
      playAnimation dur "Hit" false
        { e1 with previousState := e1.state, state := .hit }

/-- Model of mixer.update(delta): advances the current action's clip time by
delta times its effective time scale (the mixer exists once the model has
loaded). -/
def mixerUpdate (delta : ℚ) (e : EnemyState) : EnemyState :=
  if e.isModelLoaded then
    { e with currentAction :=
        e.currentAction.map (fun a => { a with time := a.time + delta * a.timeScale }) }
  else e

/-- Enemy._moveTowardsPlayer(delta, dir): normalize dir and advance the
position by moveSpeed * delta along it (early return on a zero vector). -/
def moveTowardsPlayer (M : MathLib) (delta : ℚ) (dir : Vec3)
    (e : EnemyState) : EnemyState :=
  if dir.normSq = 0 then e
  else
    let len := M.sqrt dir.normSq
    let s := e.moveSpeed * delta
    { e with pos := ⟨e.pos.x + dir.x / len * s,
                     e.pos.y + dir.y / len * s,
                     e.pos.z + dir.z / len * s⟩ }

/-- Entry into the attack state, as written identically in the idle and
chase branches of Enemy.update: set flags, pick Punch or Kick by a coin flip
on the supplied random sample, and play it one-shot. -/
def startAttack (dur : String → ℚ) (rand : ℚ) (e : EnemyState) : EnemyState :=
  playAnimation dur (if rand < 1/2 then "Punch" else "Kick") false
    { e with state := .attack, isAttackActive := false,
             attackStarted := true, attackSoundPlayed := false }

/-- Advance the spawn timer, as the `this.spawnTime += delta` line of
Enemy.update. -/
def spawnTick (delta : ℚ) (e : EnemyState) : EnemyState :=
  { e with spawnTime := e.spawnTime + delta }

/-- The state switch of Enemy.update: `distance` and `toPlayer` are the
horizontal distance and displacement to the player computed just before
it. -/
def stateStep (M : MathLib) (dur : String → ℚ) (rand delta distance : ℚ)
    (toPlayer : Vec3) (e : EnemyState) : EnemyState :=
  match e.state with
  | .idle =>
    if e.spawnDelay ≤ e.spawnTime then
      if distance ≤ e.attackRange then startAttack dur rand e
      else { e with state := .chase }
    else e
  | .chase =>
    if distance ≤ e.attackRange then startAttack dur rand e
    else moveTowardsPlayer M delta toPlayer e
  | .attack =>
    let e1 :=
      match e.currentAction with
      | some a =>
        let progress := a.time / a.duration
        if 45/100 ≤ progress ∧ progress ≤ 55/100 then
          { e with isAttackActive := true,
                   attackSoundPlayed := e.attackSoundPlayed || e.hasSound }
        else { e with isAttackActive := false }
      | none => e
    if e1.attackRange < distance then
      { e1 with state := .chase, isAttackActive := false }
    else e1
  | .hit => e
  | .death => e

/-- The animation switch run when the state changed during the tick
(hit and attack play their clips elsewhere). -/
def animOnChange (dur : String → ℚ) (prevState : EState)
    (e : EnemyState) : EnemyState :=
  if prevState ≠ e.state then
    match e.state with
    | .idle => playAnimation dur "Idle" true e
    | .chase => playAnimation dur "Run" true e
    | _ => e
  else e

/-- The ground clamp at the end of Enemy.update. -/
def clampY (e : EnemyState) : EnemyState :=
  { e with pos := { e.pos with y := e.groundY } }

/-- Enemy._lookAtPlayer: recompute the yaw from the horizontal displacement
to the player. -/
def lookAtPlayer (M : MathLib) (playerPos : Vec3) (e : EnemyState) : EnemyState :=
  { e with rotY := M.atan2 (playerPos.x - e.pos.x) (playerPos.z - e.pos.z) }

/-- Enemy.update(delta, player): the per-tick state machine step.  `rand` is
the Math.random() sample used on attack entry; `playerIsDying` is the
player isDying flag; distance tests and movement use the math library.
The collider refreshes (updateCollider, updateHitBoxCollider) write only
external Box3 state and carry no modelled fields. -/
def update (M : MathLib) (dur : String → ℚ) (rand delta : ℚ)
    (playerPos : Vec3) (playerIsDying : Bool) (e0 : EnemyState) : EnemyState :=
  let e := mixerUpdate delta e0
  if e.state = .death then e
  else if playerIsDying then e
  else
    let e := spawnTick delta e
    let toPlayer : Vec3 := { Vec3.sub playerPos e.pos with y := 0 }
    let distance := M.sqrt toPlayer.normSq
    let prevState := e.state
    let e := stateStep M dur rand delta distance toPlayer e
    let e := animOnChange dur prevState e
    lookAtPlayer M playerPos (clampY e)

end Enemy

/-- State of the base Character (src/entities/Character.js).  `deathCalls`
counts invocations of the onDeathCallback hook (fired by Character.die when
a callback is installed); `hasCallback` records whether one is installed. -/
structure CharState where
  hp : ℚ
  maxHp : ℚ
  hasCallback : Bool
  deathCalls : Nat
  deriving DecidableEq, Repr

namespace Character

/-- Character.die(): invokes the death callback immediately when present.
There is no guard: every call fires the hook again. -/
def die (c : CharState) : CharState :=
  if c.hasCallback then { c with deathCalls := c.deathCalls + 1 } else c

/-- Character.takeDamage(amount): clamp hp at 0 and call die() whenever the
resulting hp is 0. -/
def takeDamage (amount : ℚ) (c : CharState) : CharState :=
  let c1 : CharState := { c with hp := max 0 (c.hp - amount) }
  if c1.hp ≤ 0 then die c1 else c1

end Character

/-- Result of processing one enemy in CombatSystem._handleEnemyAttacks: the
updated per-enemy cooldown timer and, when the attack fired, the damage
amount passed to player.takeDamage. -/
structure EnemyTickResult where
  timer : ℚ
  dmg : Option ℚ
  deriving DecidableEq, Repr

/-- One enemy's step of CombatSystem._handleEnemyAttacks: skip dead enemies
(Enemy.isDead), compare the full 3D distance to the player against
attackRange (with the `|| 2.0` falsy fallback), tick a positive cooldown
down and return, otherwise fire the attack and reset the timer to the
system-wide enemyAttackCooldown.  `timer` is the stored timer with the
WeakMap `|| 0` default already applied. -/
def enemyAttackStep (M : MathLib) (sysCooldown delta : ℚ) (playerPos : Vec3)
    (e : EnemyState) (timer : ℚ) : EnemyTickResult :=
  if Enemy.isDead e then ⟨timer, none⟩
  else
    let toPlayer := Vec3.sub playerPos e.pos
    let dist := M.sqrt toPlayer.normSq
    let range := if e.attackRange = 0 then 2 else e.attackRange
    if range < dist then ⟨timer, none⟩
    else if 0 < timer then ⟨timer - delta, none⟩
    else ⟨sysCooldown, some e.attackDamage⟩

/-- Iterate enemyAttackStep for one enemy over a list of tick deltas,
threading the stored timer and collecting the per-tick damage events.  (The
enemy-to-player pass never mutates the enemy itself.) -/
def enemyAttackRun (M : MathLib) (sysCooldown : ℚ) (playerPos : Vec3)
    (e : EnemyState) : ℚ → List ℚ → ℚ × List (Option ℚ)
  | timer, [] => (timer, [])
  | timer, delta :: ds =>
    let r := enemyAttackStep M sysCooldown delta playerPos e timer
    let rest := enemyAttackRun M sysCooldown playerPos e r.timer ds
    (rest.1, r.dmg :: rest.2)

/-- Knockback applied on a successful player hit: push the enemy 1 unit
directly away from the player on the horizontal plane
(Vector3.normalize divides by `length || 1`). -/
def knockback (M : MathLib) (playerPos : Vec3) (e : EnemyState) : EnemyState :=
  let d : Vec3 := { Vec3.sub e.pos playerPos with y := 0 }
  let len0 := M.sqrt d.normSq
  let len := if len0 = 0 then 1 else len0
  { e with pos := ⟨e.pos.x + d.x / len, e.pos.y + d.y / len, e.pos.z + d.z / len⟩ }

/-- Processing of one enemy inside CombatSystem._handlePlayerAttack, after
the caller has checked player.isAttackActive and the presence of the attack
hitbox: skip dead or box-less enemies, test the Box3 overlap (supplied as an
oracle, the geometry being external), enforce the 1000 ms per-enemy re-hit
window on performance.now() timestamps, and on a hit damage and knock back
the enemy and record the new timestamp.  `lastHit` is the stored timestamp
with the WeakMap `|| 0` default applied.  Returns (enemy after, whether
player.takeDamage fired on it, stored timestamp after). -/
def playerHitEnemy (M : MathLib) (dur : String → ℚ) (pDmg : ℚ)
    (playerPos : Vec3) (now : ℚ) (overlap : Bool) (e : EnemyState)
    (lastHit : ℚ) : EnemyState × Bool × ℚ :=
  if Enemy.isDead e then (e, false, lastHit)
  else if ¬ e.hasHitBox then (e, false, lastHit)
  else if overlap then
    if now - lastHit < 1000 then (e, false, lastHit)
    else
      let e1 := Enemy.takeDamage dur pDmg e
      (knockback M playerPos e1, true, now)
  else (e, false, lastHit)

/-- CombatSystem._handlePlayerAttack over the enemies list for one tick:
returns without touching anything when the player's attack is not active or
the attack hitbox is missing; otherwise processes each enemy independently
with its own stored timestamp. -/
def handlePlayerAttackList (M : MathLib) (dur : String → ℚ) (pDmg : ℚ)
    (playerPos : Vec3) (now : ℚ) (isAttackActive hasAttackHitbox : Bool)
    (es : List (EnemyState × Bool × ℚ)) : List (EnemyState × Bool × ℚ) :=
  if ¬ isAttackActive then es.map (fun p => (p.1, false, p.2.2))
  else if ¬ hasAttackHitbox then es.map (fun p => (p.1, false, p.2.2))
  else es.map (fun p => playerHitEnemy M dur pDmg playerPos now p.2.1 p.1 p.2.2)

/-- Multi-tick run of the player-to-enemy check for a single enemy: each
entry of the schedule carries the tick's performance.now() timestamp, the
overlap oracle for that tick and the player position; the result is the list
of timestamps at which damage was actually applied. -/
def playerHitRun (M : MathLib) (dur : String → ℚ) (pDmg : ℚ) :
    EnemyState → ℚ → List (ℚ × Bool × Vec3) → List ℚ
  | _, _, [] => []
  | e, lastHit, (now, ov, pp) :: ts =>
    let r := playerHitEnemy M dur pDmg pp now ov e lastHit
    if r.2.1 then now :: playerHitRun M dur pDmg r.1 r.2.2 ts
    else playerHitRun M dur pDmg r.1 r.2.2 ts

/-- Concrete enemy with the constructor defaults of Enemy.js, model loaded,
standing at the origin in the idle state. -/
def baseEnemy : EnemyState := {
  maxHp := 50, hp := 50, moveSpeed := 3, chaseRange := 25, attackRange := 2,
  attackDamage := 5, attackCooldown := 1, radius := 7/10, groundY := 0,
  state := .idle, isDying := false, spawnTime := 0, spawnDelay := 1,
  previousState := .idle, isAttackActive := false, attackSoundPlayed := false,
  attackStarted := false, hasSound := false, isModelLoaded := true,
  pos := ⟨0, 0, 0⟩, rotY := 0, currentAction := none, hasHitBox := true }

/-- Concrete clip-duration table (every clip one second) for closed
evaluations. -/
def dur1 : String → ℚ := fun _ => 1

/-- Enemy whose death sequence has begun: state death, isDying set, as
Enemy.die leaves it. -/
def dyingEnemy : EnemyState :=
  { baseEnemy with state := .death, isDying := true,
                   currentAction := some ⟨"Death", 0, 1, 13/10, false⟩ }

/-- Enemy in mid-attack with the damage window open (Punch at 45 percent
of a one-second clip). -/
def atkEnemy : EnemyState :=
  { baseEnemy with state := .attack, isAttackActive := true,
                   currentAction := some ⟨"Punch", 45/100, 1, 9/5, false⟩ }

/-- Enemy whose 3D model has not loaded yet (isModelLoaded false), at 5 hp. -/
def unloadedEnemy : EnemyState :=
  { baseEnemy with isModelLoaded := false, hp := 5, currentAction := none }

/-- Replace only the chaseRange tunable of an enemy, leaving every other
field in place (used to state that no behavior reads chaseRange). -/
def setChase (c : ℚ) (e : EnemyState) : EnemyState := { e with chaseRange := c }

end CG

namespace CG

/-- Evaluation lemma: the demo square root at 0. -/
lemma demoMath_sqrt_zero : demoMath.sqrt 0 = 0 := by
  show ratSqrt 0 = 0
  unfold ratSqrt
  norm_num [show intSqrt 0 = 0 from by decide, show intSqrt 1 = 1 from by decide]

/-- Evaluation lemma: the demo square root at 100. -/
lemma demoMath_sqrt_hundred : demoMath.sqrt 100 = 10 := by
  show ratSqrt 100 = 10
  unfold ratSqrt
  norm_num [show intSqrt (Int.toNat 100) = 10 from by decide,
            show intSqrt 1 = 1 from by decide]

/-- C1 counterexample: enemy within attackRange (distance 0 against range
2), stored cooldown timer 0.3 s.  The 0.2 s tick leaves the timer at 0.1 s
with no damage, as the claim says; but the further 0.15 s tick only
decrements the timer to -0.05 (which is ≤ 0) and returns, applying NO
damage in that same tick, against the claim that exactly attackDamage is
applied then. -/
theorem C1_counterexample :
    enemyAttackStep demoMath 1 (2/10) ⟨0, 0, 0⟩ baseEnemy (3/10) =
      ⟨1/10, none⟩ ∧
    enemyAttackStep demoMath 1 (15/100) ⟨0, 0, 0⟩ baseEnemy (1/10) =
      ⟨-(1/20), none⟩ := by
  norm_num [enemyAttackStep, Enemy.isDead, baseEnemy, Vec3.sub, Vec3.normSq,
            demoMath_sqrt_zero]

/-- C1 amended: as in the claim, the 0.2 s tick leaves the timer at 0.1 s
with no damage, and the 0.15 s tick leaves the timer at -0.05 (which is
≤ 0); but that tick applies no damage either — the enemy attackDamage (5)
is applied on the NEXT tick, which also resets the timer. -/
theorem C1_amended :
    enemyAttackRun demoMath 1 ⟨0, 0, 0⟩ baseEnemy (3/10)
        [2/10, 15/100, 1/10] =
      (1, [none, none, some 5]) ∧
    baseEnemy.attackDamage = 5 := by
  norm_num [enemyAttackRun, enemyAttackStep, Enemy.isDead, baseEnemy,
            Vec3.sub, Vec3.normSq, demoMath_sqrt_zero]

/-- C2 counterexample: an enemy spawned with attackCooldown 2 fires, yet the
combat loop resets its timer to 1 — the CombatSystem enemyAttackCooldown
default — not to the per-enemy tunable 2. -/
theorem C2_counterexample :
    (enemyAttackStep demoMath 1 (1/10) ⟨0, 0, 0⟩
        { baseEnemy with attackCooldown := 2 } 0).dmg = some 5 ∧
    (enemyAttackStep demoMath 1 (1/10) ⟨0, 0, 0⟩
        { baseEnemy with attackCooldown := 2 } 0).timer = 1 ∧
    ({ baseEnemy with attackCooldown := 2 } : EnemyState).attackCooldown = 2 := by
  norm_num [enemyAttackStep, Enemy.isDead, baseEnemy, Vec3.sub, Vec3.normSq,
            demoMath_sqrt_zero]

/-- C2 amended: whenever the combat loop applies an enemy attack to the
player, it resets that enemy cooldown timer to the CombatSystem-wide
enemyAttackCooldown configured at construction (default 1.0); the per-enemy
attackCooldown field set at spawn is never read. -/
theorem C2_amended (M : MathLib) (sysCooldown delta : ℚ) (pp : Vec3)
    (e : EnemyState) (timer d : ℚ)
    (h : (enemyAttackStep M sysCooldown delta pp e timer).dmg = some d) :
    (enemyAttackStep M sysCooldown delta pp e timer).timer = sysCooldown := by
  unfold enemyAttackStep at h ⊢
  simp only [Enemy.isDead, Bool.false_eq_true, if_false] at h ⊢
  by_cases h1 : (if e.attackRange = 0 then 2 else e.attackRange) <
      M.sqrt (Vec3.sub pp e.pos).normSq
  · simp [h1] at h
  · by_cases h2 : 0 < timer
    · simp [h1, h2] at h
    · simp [h1, h2]

/-- C2 amended, witness at a concrete input: the default enemy at the
player position with an expired timer. -/
theorem C2_amended_witness :
    (enemyAttackStep demoMath 1 (1/10) ⟨0, 0, 0⟩ baseEnemy 0).timer = 1 :=
  C2_amended demoMath 1 (1/10) ⟨0, 0, 0⟩ baseEnemy 0 5 (by
    norm_num [enemyAttackStep, Enemy.isDead, baseEnemy, Vec3.sub, Vec3.normSq,
              demoMath_sqrt_zero])

/-- C3, evaluated at the failing input: an enemy whose death sequence has
begun (state death, isDying set), standing at the player position with an
expired timer, still has its attackDamage applied to the player, because
the dead-guard calls Enemy.isDead, which always returns false. -/
theorem C3_code_bug_eval :
    dyingEnemy.state = .death ∧ dyingEnemy.isDying = true ∧
    Enemy.isDead dyingEnemy = false ∧
    (enemyAttackStep demoMath 1 (1/10) ⟨0, 0, 0⟩ dyingEnemy 0).dmg =
      some dyingEnemy.attackDamage := by
  norm_num [enemyAttackStep, Enemy.isDead, dyingEnemy, baseEnemy, Vec3.sub,
            Vec3.normSq, demoMath_sqrt_zero]

/-- C6 counterexample: a base Character at 10/10 hp with a death callback
installed.  takeDamage 10 drops hp to 0 and calls die, firing the callback;
a further takeDamage 1 is not a no-op: hp is already 0, so die — and the
callback — fire a second time. -/
theorem C6_counterexample :
    (Character.takeDamage 1
        (Character.takeDamage 10 ⟨10, 10, true, 0⟩)).deathCalls = 2 := by
  norm_num [Character.takeDamage, Character.die]

/-- C6 amended: Character.takeDamage clamps hp to [0, maxHp] for
nonnegative damage, and Enemy.takeDamage while dying is a no-op (death is
entered exactly once for enemies); but the base Character has no dying
guard: every takeDamage call that finds hp ≤ amount runs die again, so with
a callback installed onDeathCallback fires on each such call rather than at
most once. -/
theorem C6_amended :
    (∀ (a : ℚ) (c : CharState), 0 ≤ a → 0 ≤ c.hp → c.hp ≤ c.maxHp →
        0 ≤ (Character.takeDamage a c).hp ∧
        (Character.takeDamage a c).hp ≤ c.maxHp) ∧
    (∀ (dur : String → ℚ) (a : ℚ) (e : EnemyState), e.isDying = true →
        Enemy.takeDamage dur a e = e) ∧
    (∀ (a : ℚ) (c : CharState), c.hasCallback = true → c.hp ≤ a →
        (Character.takeDamage a c).deathCalls = c.deathCalls + 1) := by
  refine ⟨?_, ?_, ?_⟩
  · intro a c ha h0 hm
    have h2 : (0 : ℚ) ≤ c.maxHp := le_trans h0 hm
    have hle : max 0 (c.hp - a) ≤ c.maxHp := by
      have h1 : c.hp - a ≤ c.maxHp := by linarith
      simp [max_le_iff, h1, h2]
    unfold Character.takeDamage Character.die
    dsimp only
    constructor
    · split
      · split <;> simp [le_max_left]
      · simp [le_max_left]
    · split
      · split <;> simpa using hle
      · simpa using hle
  · intro dur a e h
    unfold Enemy.takeDamage
    simp [h]
  · intro a c hcb h
    have hz : max 0 (c.hp - a) = 0 := max_eq_left (by linarith)
    unfold Character.takeDamage Character.die
    dsimp only
    simp [hz, hcb]

/-- C7 counterexample: two player positions with the same horizontal
displacement from the default enemy (x and z both 0), differing only in y.
With the player 10 units overhead no damage fires, with the player at the
enemy position it does: the vertical component is NOT ignored by the
enemy-to-player damage check. -/
theorem C7_counterexample :
    (enemyAttackStep demoMath 1 (1/10) ⟨0, 10, 0⟩ baseEnemy 0).dmg = none ∧
    (enemyAttackStep demoMath 1 (1/10) ⟨0, 0, 0⟩ baseEnemy 0).dmg = some 5 := by
  norm_num [enemyAttackStep, Enemy.isDead, baseEnemy, Vec3.sub, Vec3.normSq,
            demoMath_sqrt_zero, demoMath_sqrt_hundred]

/-- C7 amended: the enemy-to-player damage check gates on the FULL 3D
distance (vertical displacement included): damage fires exactly when the
3D length of the displacement does not exceed the range (attackRange with
the falsy fallback 2.0) and the stored timer is not positive. -/
theorem C7_amended (M : MathLib) (sysCooldown delta : ℚ) (pp : Vec3)
    (e : EnemyState) (timer : ℚ) :
    (enemyAttackStep M sysCooldown delta pp e timer).dmg =
        some e.attackDamage ↔
      ¬ ((if e.attackRange = 0 then 2 else e.attackRange) <
          M.sqrt (Vec3.sub pp e.pos).normSq) ∧ ¬ (0 < timer) := by
  unfold enemyAttackStep
  simp only [Enemy.isDead, Bool.false_eq_true, if_false]
  by_cases h1 : (if e.attackRange = 0 then 2 else e.attackRange) <
      M.sqrt (Vec3.sub pp e.pos).normSq
  · simp [h1]
  · by_cases h2 : 0 < timer
    · simp [h1, h2]
    · simp [h1, h2]

end CG

namespace CG
namespace Enemy

/-- playAnimation touches only currentAction: the attack-window flag is
unchanged. -/
@[simp]
lemma playAnimation_isAttackActive (dur : String → ℚ) (n : String) (l : Bool)
    (e : EnemyState) :
    (playAnimation dur n l e).isAttackActive = e.isAttackActive := by
  unfold playAnimation
  split
  · rfl
  · split
    · split <;> rfl
    · rfl

/-- playAnimation touches only currentAction: the state is unchanged. -/
@[simp]
lemma playAnimation_state (dur : String → ℚ) (n : String) (l : Bool)
    (e : EnemyState) :
    (playAnimation dur n l e).state = e.state := by
  unfold playAnimation
  split
  · rfl
  · split
    · split <;> rfl
    · rfl

/-- playAnimation touches only currentAction: isDying is unchanged. -/
@[simp]
lemma playAnimation_isDying (dur : String → ℚ) (n : String) (l : Bool)
    (e : EnemyState) :
    (playAnimation dur n l e).isDying = e.isDying := by
  unfold playAnimation
  split
  · rfl
  · split
    · split <;> rfl
    · rfl

/-- playAnimation touches only currentAction: hp is unchanged. -/
@[simp]
lemma playAnimation_hp (dur : String → ℚ) (n : String) (l : Bool)
    (e : EnemyState) :
    (playAnimation dur n l e).hp = e.hp := by
  unfold playAnimation
  split
  · rfl
  · split
    · split <;> rfl
    · rfl

/-- The mixer advance touches only the current action: state unchanged. -/
@[simp]
lemma mixerUpdate_state (delta : ℚ) (e : EnemyState) :
    (mixerUpdate delta e).state = e.state := by
  unfold mixerUpdate
  split <;> rfl

/-- The mixer advance touches only the current action: the attack-window
flag is unchanged. -/
@[simp]
lemma mixerUpdate_isAttackActive (delta : ℚ) (e : EnemyState) :
    (mixerUpdate delta e).isAttackActive = e.isAttackActive := by
  unfold mixerUpdate
  split <;> rfl

/-- Enemy.die never writes the attack-window flag. -/
@[simp]
lemma die_isAttackActive (dur : String → ℚ) (e : EnemyState) :
    (die dur e).isAttackActive = e.isAttackActive := by
  unfold die
  split
  · simp
  · rfl

/-- Enemy.takeDamage never writes the attack-window flag. -/
@[simp]
lemma takeDamage_isAttackActive (dur : String → ℚ) (a : ℚ) (e : EnemyState) :
    (takeDamage dur a e).isAttackActive = e.isAttackActive := by
  unfold takeDamage
  split
  · rfl
  · dsimp only
    split
    · simp
    · simp

/-- Enemy.takeDamage is the identity on an enemy already dying. -/
lemma takeDamage_dying (dur : String → ℚ) (a : ℚ) (e : EnemyState)
    (h : e.isDying = true) : takeDamage dur a e = e := by
  unfold takeDamage
  simp [h]

/-- playAnimation commutes with replacing chaseRange (it never reads it). -/
lemma playAnimation_setChase (dur : String → ℚ) (n : String) (l : Bool)
    (c : ℚ) (e : EnemyState) :
    playAnimation dur n l (setChase c e) = setChase c (playAnimation dur n l e) := by
  unfold playAnimation setChase
  dsimp only
  split
  · rfl
  · split <;> split <;> rfl

/-- The mixer advance commutes with replacing chaseRange. -/
lemma mixerUpdate_setChase (delta c : ℚ) (e : EnemyState) :
    mixerUpdate delta (setChase c e) = setChase c (mixerUpdate delta e) := by
  unfold mixerUpdate setChase
  dsimp only
  split <;> rfl

/-- The spawn-timer advance commutes with replacing chaseRange. -/
lemma spawnTick_setChase (delta c : ℚ) (e : EnemyState) :
    spawnTick delta (setChase c e) = setChase c (spawnTick delta e) := rfl

/-- Entering the attack state commutes with replacing chaseRange. -/
lemma startAttack_setChase (dur : String → ℚ) (rand c : ℚ) (e : EnemyState) :
    startAttack dur rand (setChase c e) = setChase c (startAttack dur rand e) := by
  unfold startAttack
  rw [show ({ setChase c e with state := EState.attack, isAttackActive := false, attackStarted := true, attackSoundPlayed := false } : EnemyState) = setChase c { e with state := EState.attack, isAttackActive := false, attackStarted := true, attackSoundPlayed := false } from rfl]
  rw [playAnimation_setChase]

/-- Chase movement commutes with replacing chaseRange (only moveSpeed and
the position are read). -/
lemma moveTowardsPlayer_setChase (M : MathLib) (delta c : ℚ) (dir : Vec3)
    (e : EnemyState) :
    moveTowardsPlayer M delta dir (setChase c e) =
      setChase c (moveTowardsPlayer M delta dir e) := by
  unfold moveTowardsPlayer setChase
  dsimp only
  split <;> rfl

/-- The state switch of Enemy.update commutes with replacing chaseRange:
no branch reads the field. -/
lemma stateStep_setChase (M : MathLib) (dur : String → ℚ)
    (rand delta distance c : ℚ) (toPlayer : Vec3) (e : EnemyState) :
    stateStep M dur rand delta distance toPlayer (setChase c e) =
      setChase c (stateStep M dur rand delta distance toPlayer e) := by
  unfold stateStep
  rcases hst : e.state
  case idle =>
    rw [show (setChase c e).state = e.state from rfl, hst]
    dsimp only
    rw [show (setChase c e).spawnDelay = e.spawnDelay from rfl,
        show (setChase c e).spawnTime = e.spawnTime from rfl,
        show (setChase c e).attackRange = e.attackRange from rfl]
    split
    · split
      · exact startAttack_setChase dur rand c e
      · rfl
    · rfl
  case chase =>
    rw [show (setChase c e).state = e.state from rfl, hst]
    dsimp only
    rw [show (setChase c e).attackRange = e.attackRange from rfl]
    split
    · exact startAttack_setChase dur rand c e
    · exact moveTowardsPlayer_setChase M delta c toPlayer e
  case attack =>
    rw [show (setChase c e).state = e.state from rfl, hst]
    dsimp only
    rw [show (setChase c e).currentAction = e.currentAction from rfl]
    rcases hca : e.currentAction with _ | a
    · dsimp only
      rw [show (setChase c e).attackRange = e.attackRange from rfl]
      split <;> rfl
    · dsimp only
      by_cases hp1 : (45:ℚ)/100 ≤ a.time / a.duration ∧ a.time / a.duration ≤ (55:ℚ)/100
      · rw [if_pos hp1, if_pos hp1]
        dsimp only
        rw [show (setChase c e).attackRange = e.attackRange from rfl]
        split <;> rfl
      · rw [if_neg hp1, if_neg hp1]
        dsimp only
        rw [show (setChase c e).attackRange = e.attackRange from rfl]
        split <;> rfl
  case hit =>
    rw [show (setChase c e).state = e.state from rfl, hst]
  case death =>
    rw [show (setChase c e).state = e.state from rfl, hst]

/-- The on-state-change animation switch commutes with replacing
chaseRange. -/
lemma animOnChange_setChase (dur : String → ℚ) (prevState : EState)
    (c : ℚ) (e : EnemyState) :
    animOnChange dur prevState (setChase c e) =
      setChase c (animOnChange dur prevState e) := by
  unfold animOnChange
  rw [show (setChase c e).state = e.state from rfl]
  split
  · cases e.state with
    | idle => exact playAnimation_setChase dur "Idle" true c e
    | chase => exact playAnimation_setChase dur "Run" true c e
    | attack => rfl
    | hit => rfl
    | death => rfl
  · rfl

/-- The ground clamp commutes with replacing chaseRange. -/
lemma clampY_setChase (c : ℚ) (e : EnemyState) :
    clampY (setChase c e) = setChase c (clampY e) := rfl

/-- The facing update commutes with replacing chaseRange. -/
lemma lookAtPlayer_setChase (M : MathLib) (pp : Vec3) (c : ℚ) (e : EnemyState) :
    lookAtPlayer M pp (setChase c e) = setChase c (lookAtPlayer M pp e) := rfl

/-- Enemy.die commutes with replacing chaseRange. -/
lemma die_setChase (dur : String → ℚ) (c : ℚ) (e : EnemyState) :
    die dur (setChase c e) = setChase c (die dur e) := by
  unfold die
  rw [show (setChase c e).isDying = e.isDying from rfl]
  rw [show (setChase c e).isModelLoaded = e.isModelLoaded from rfl]
  split
  · exact playAnimation_setChase dur "Death" false c { e with isDying := true, state := EState.death }
  · rfl

/-- Enemy.takeDamage commutes with replacing chaseRange. -/
lemma takeDamage_setChase (dur : String → ℚ) (a c : ℚ) (e : EnemyState) :
    takeDamage dur a (setChase c e) = setChase c (takeDamage dur a e) := by
  unfold takeDamage
  rw [show (setChase c e).isDying = e.isDying from rfl]
  split
  · rfl
  · dsimp only
    rw [show (setChase c e).hp = e.hp from rfl]
    split
    · exact die_setChase dur c { e with hp := max 0 (e.hp - a) }
    · rw [show (setChase c e).state = e.state from rfl]
      exact playAnimation_setChase dur "Hit" false c { e with hp := max 0 (e.hp - a), previousState := e.state, state := EState.hit }

/-- Enemy.update commutes with replacing chaseRange: the per-tick step never
reads the field. -/
lemma update_setChase (M : MathLib) (dur : String → ℚ) (rand delta c : ℚ)
    (pp : Vec3) (pd : Bool) (e : EnemyState) :
    update M dur rand delta pp pd (setChase c e) =
      setChase c (update M dur rand delta pp pd e) := by
  unfold update
  rw [mixerUpdate_setChase]
  dsimp only
  rw [show (setChase c (mixerUpdate delta e)).state = (mixerUpdate delta e).state from rfl]
  split
  · rfl
  · split
    · rfl
    · rw [spawnTick_setChase]
      rw [show (setChase c (spawnTick delta (mixerUpdate delta e))).pos = (spawnTick delta (mixerUpdate delta e)).pos from rfl]
      rw [show (setChase c (spawnTick delta (mixerUpdate delta e))).state = (spawnTick delta (mixerUpdate delta e)).state from rfl]
      rw [stateStep_setChase, animOnChange_setChase, clampY_setChase,
          lookAtPlayer_setChase]

end Enemy

/-- The enemy-to-player step reads only attackRange, attackDamage and the
position: it is unchanged under replacing chaseRange. -/
lemma enemyAttackStep_setChase (M : MathLib) (sysCooldown delta c : ℚ)
    (pp : Vec3) (e : EnemyState) (timer : ℚ) :
    enemyAttackStep M sysCooldown delta pp (setChase c e) timer =
      enemyAttackStep M sysCooldown delta pp e timer := rfl

/-- Knockback commutes with replacing chaseRange. -/
lemma knockback_setChase (M : MathLib) (pp : Vec3) (c : ℚ) (e : EnemyState) :
    knockback M pp (setChase c e) = setChase c (knockback M pp e) := rfl

/-- The player-to-enemy per-enemy step commutes with replacing chaseRange:
the damage decision and the new timestamp do not depend on the field. -/
lemma playerHitEnemy_setChase (M : MathLib) (dur : String → ℚ)
    (pDmg : ℚ) (pp : Vec3) (now : ℚ) (ov : Bool) (c : ℚ) (e : EnemyState)
    (lastHit : ℚ) :
    playerHitEnemy M dur pDmg pp now ov (setChase c e) lastHit =
      (setChase c (playerHitEnemy M dur pDmg pp now ov e lastHit).1,
       (playerHitEnemy M dur pDmg pp now ov e lastHit).2) := by
  unfold playerHitEnemy
  simp only [Enemy.isDead, Bool.false_eq_true, if_false]
  rw [show (setChase c e).hasHitBox = e.hasHitBox from rfl]
  split
  · rfl
  · split
    · split
      · rfl
      · dsimp only
        rw [Enemy.takeDamage_setChase, knockback_setChase]
    · rfl

/-- When the player-to-enemy step damages an enemy, at least 1000 ms have
passed since that enemy's stored timestamp, and the stored timestamp becomes
the current time; when it does not damage, the timestamp is unchanged. -/
lemma playerHitEnemy_hit_spec (M : MathLib) (dur : String → ℚ) (pDmg : ℚ)
    (pp : Vec3) (now : ℚ) (ov : Bool) (e : EnemyState) (l : ℚ) :
    ((playerHitEnemy M dur pDmg pp now ov e l).2.1 = true →
      l + 1000 ≤ now ∧ (playerHitEnemy M dur pDmg pp now ov e l).2.2 = now) ∧
    ((playerHitEnemy M dur pDmg pp now ov e l).2.1 = false →
      (playerHitEnemy M dur pDmg pp now ov e l).2.2 = l) := by
  unfold playerHitEnemy
  simp only [Enemy.isDead, Bool.false_eq_true, if_false]
  split
  · simp
  · split
    · split
      · simp
      · constructor
        · intro _
          constructor
          · linarith [not_lt.mp (by assumption : ¬ now - l < 1000)]
          · simp
        · intro hb
          simp at hb
    · simp

/-- Along any single-enemy run of the player-to-enemy check, every damage
time exceeds the initial stored timestamp by at least 1000 ms, and any two
damage times are at least 1000 ms apart. -/
lemma playerHitRun_bound (M : MathLib) (dur : String → ℚ) (pDmg : ℚ) :
    ∀ (ts : List (ℚ × Bool × Vec3)) (e : EnemyState) (l : ℚ),
      (∀ t ∈ playerHitRun M dur pDmg e l ts, l + 1000 ≤ t) ∧
      List.Pairwise (fun a b : ℚ => a + 1000 ≤ b)
        (playerHitRun M dur pDmg e l ts) := by
  intro ts
  induction ts with
  | nil => intro e l; simp [playerHitRun]
  | cons h rest ih =>
    obtain ⟨now, ov, pp⟩ := h
    intro e l
    rcases hb : (playerHitEnemy M dur pDmg pp now ov e l).2.1 with _ | _
    · have hl : (playerHitEnemy M dur pDmg pp now ov e l).2.2 = l :=
        (playerHitEnemy_hit_spec M dur pDmg pp now ov e l).2 hb
      simp only [playerHitRun, hb, hl]
      simp only [Bool.false_eq_true, if_false]
      exact ih _ l
    · have hsp := (playerHitEnemy_hit_spec M dur pDmg pp now ov e l).1 hb
      simp only [playerHitRun, hb, hsp.2, if_true]
      have ihn := ih (playerHitEnemy M dur pDmg pp now ov e l).1 now
      constructor
      · intro t ht
        rcases List.mem_cons.mp ht with h1 | h1
        · subst h1; exact hsp.1
        · have := ihn.1 t h1
          linarith [hsp.1]
      · refine List.pairwise_cons.mpr ⟨?_, ihn.2⟩
        intro t ht
        have := ihn.1 t ht
        linarith

end CG

namespace CG

/-- C4 counterexample: an enemy in mid-attack with its damage window open
(isAttackActive true) takes 10 damage while at 50 hp.  It transitions to
the hit state, yet isAttackActive remains true: the interrupt does NOT
force the attack-window flag false. -/
theorem C4_counterexample :
    atkEnemy.state = .attack ∧ atkEnemy.isAttackActive = true ∧
    (Enemy.takeDamage dur1 10 atkEnemy).state = .hit ∧
    (Enemy.takeDamage dur1 10 atkEnemy).isAttackActive = true := by
  norm_num [Enemy.takeDamage, Enemy.die, Enemy.playAnimation, atkEnemy,
            baseEnemy, dur1]
  decide

/-- C4 amended: while the state is hit or death, neither the per-tick
update nor takeDamage nor die ever modifies the attack-window flag — in
particular the hit and death states never newly open the window; but
receiving damage does not force the flag false, so a window open at the
interrupt stays open (see the counterexample). -/
theorem C4_amended (M : MathLib) (dur : String → ℚ) (rand delta amount : ℚ)
    (pp : Vec3) (pd : Bool) (e : EnemyState)
    (h : e.state = .hit ∨ e.state = .death) :
    (Enemy.update M dur rand delta pp pd e).isAttackActive = e.isAttackActive ∧
    (Enemy.takeDamage dur amount e).isAttackActive = e.isAttackActive ∧
    (Enemy.die dur e).isAttackActive = e.isAttackActive := by
  refine ⟨?_, Enemy.takeDamage_isAttackActive dur amount e,
          Enemy.die_isAttackActive dur e⟩
  rcases h with h | h
  · simp only [Enemy.update]
    rcases pd with _ | _ <;>
      simp [h, Enemy.spawnTick, Enemy.stateStep, Enemy.animOnChange,
            Enemy.clampY, Enemy.lookAtPlayer]
  · simp [Enemy.update, h]

/-- C4 amended, witness at a concrete input: an enemy in the hit state. -/
theorem C4_amended_witness :
    (Enemy.update demoMath dur1 0 (1/10) ⟨1, 0, 1⟩ false
        { baseEnemy with state := .hit }).isAttackActive =
      ({ baseEnemy with state := .hit } : EnemyState).isAttackActive ∧
    (Enemy.takeDamage dur1 3 { baseEnemy with state := .hit }).isAttackActive =
      ({ baseEnemy with state := .hit } : EnemyState).isAttackActive ∧
    (Enemy.die dur1 { baseEnemy with state := .hit }).isAttackActive =
      ({ baseEnemy with state := .hit } : EnemyState).isAttackActive :=
  C4_amended demoMath dur1 0 (1/10) 3 ⟨1, 0, 1⟩ false
    { baseEnemy with state := .hit } (Or.inl rfl)

/-- C5 counterexample: an enemy whose model has not loaded yet takes lethal
damage.  hp reaches 0, but die() is gated on isModelLoaded, so the enemy
does NOT enter the death sequence: isDying stays false and the state stays
idle. -/
theorem C5_counterexample :
    unloadedEnemy.hp = 5 ∧ unloadedEnemy.isModelLoaded = false ∧
    (Enemy.takeDamage dur1 5 unloadedEnemy).hp = 0 ∧
    (Enemy.takeDamage dur1 5 unloadedEnemy).isDying = false ∧
    (Enemy.takeDamage dur1 5 unloadedEnemy).state = .idle := by
  norm_num [Enemy.takeDamage, Enemy.die, Enemy.playAnimation, unloadedEnemy,
            baseEnemy, dur1]

/-- C5 amended: provided the enemy model has loaded, a takeDamage call that
brings hp to 0 puts the enemy into the death sequence (state death, isDying
true, hp exactly 0), and from then on every further takeDamage call is a
complete no-op. -/
theorem C5_amended (dur : String → ℚ) (amount : ℚ) (e : EnemyState)
    (h1 : e.isModelLoaded = true) (h2 : e.isDying = false)
    (h3 : e.hp ≤ amount) :
    (Enemy.takeDamage dur amount e).state = .death ∧
    (Enemy.takeDamage dur amount e).isDying = true ∧
    (Enemy.takeDamage dur amount e).hp = 0 ∧
    (∀ (dur2 : String → ℚ) (a2 : ℚ),
        Enemy.takeDamage dur2 a2 (Enemy.takeDamage dur amount e) =
          Enemy.takeDamage dur amount e) := by
  have hz : max 0 (e.hp - amount) = 0 := max_eq_left (by linarith)
  have hd : Enemy.takeDamage dur amount e =
      Enemy.die dur { e with hp := max 0 (e.hp - amount) } := by
    unfold Enemy.takeDamage
    simp [h2, hz]
  have hstate : (Enemy.takeDamage dur amount e).state = .death ∧
      (Enemy.takeDamage dur amount e).isDying = true ∧
      (Enemy.takeDamage dur amount e).hp = 0 := by
    rw [hd]
    unfold Enemy.die
    simp [h1, h2, hz]
  refine ⟨hstate.1, hstate.2.1, hstate.2.2, ?_⟩
  intro dur2 a2
  exact Enemy.takeDamage_dying dur2 a2 _ hstate.2.1

/-- C5 amended, witness at a concrete input: the default enemy at 5 hp
taking 5 damage. -/
theorem C5_amended_witness :
    (Enemy.takeDamage dur1 5 { baseEnemy with hp := 5 }).state = .death ∧
    (Enemy.takeDamage dur1 5 { baseEnemy with hp := 5 }).isDying = true ∧
    (Enemy.takeDamage dur1 5 { baseEnemy with hp := 5 }).hp = 0 ∧
    (∀ (dur2 : String → ℚ) (a2 : ℚ),
        Enemy.takeDamage dur2 a2
            (Enemy.takeDamage dur1 5 { baseEnemy with hp := 5 }) =
          Enemy.takeDamage dur1 5 { baseEnemy with hp := 5 }) :=
  C5_amended dur1 5 { baseEnemy with hp := 5 } rfl rfl
    (by norm_num [baseEnemy])

/-- C8: along any run of the player-to-enemy check against one enemy, any
two times at which damage is actually applied are at least 1000 ms of
wall clock apart (whatever the tick schedule and overlap pattern); and the
per-tick pass over the enemies list processes each enemy by its own
(state, overlap, timestamp) triple only, so two enemies caught in the same
swing are gated independently by their own timestamps. -/
theorem C8_rehit_cooldown :
    (∀ (M : MathLib) (dur : String → ℚ) (pDmg : ℚ) (e : EnemyState)
        (l : ℚ) (ts : List (ℚ × Bool × Vec3)),
        List.Pairwise (fun a b : ℚ => a + 1000 ≤ b)
          (playerHitRun M dur pDmg e l ts)) ∧
    (∀ (M : MathLib) (dur : String → ℚ) (pDmg : ℚ) (pp : Vec3) (now : ℚ)
        (p : EnemyState × Bool × ℚ) (rest : List (EnemyState × Bool × ℚ)),
        handlePlayerAttackList M dur pDmg pp now true true (p :: rest) =
          playerHitEnemy M dur pDmg pp now p.2.1 p.1 p.2.2 ::
            handlePlayerAttackList M dur pDmg pp now true true rest) :=
  ⟨fun M dur pDmg e l ts => (playerHitRun_bound M dur pDmg ts e l).2,
   fun M dur pDmg pp now p rest => by simp [handlePlayerAttackList]⟩

/-- C9 counterexample: the default enemy is in the idle state (not death),
yet a tick in which the player is dying returns before the facing update:
the yaw stays 0 instead of being recomputed from the displacement to the
player at (1, 0, 1). -/
theorem C9_counterexample :
    baseEnemy.state ≠ .death ∧
    (Enemy.update demoMath dur1 0 (1/10) ⟨1, 0, 1⟩ true baseEnemy).rotY ≠
      demoMath.atan2
        (1 - (Enemy.update demoMath dur1 0 (1/10) ⟨1, 0, 1⟩ true baseEnemy).pos.x)
        (1 - (Enemy.update demoMath dur1 0 (1/10) ⟨1, 0, 1⟩ true baseEnemy).pos.z) := by
  refine ⟨by decide, ?_⟩
  norm_num [Enemy.update, Enemy.mixerUpdate, Enemy.spawnTick, Enemy.stateStep,
            Enemy.animOnChange, Enemy.clampY, Enemy.lookAtPlayer, baseEnemy,
            demoMath, dur1]

/-- C9 amended: for every enemy not in the death state, provided the player
is not dying, the per-tick update recomputes the yaw as atan2 of the
horizontal displacement (dx, dz) from the enemy position after the tick to
the player, with vertical displacement ignored. -/
theorem C9_amended (M : MathLib) (dur : String → ℚ) (rand delta : ℚ)
    (pp : Vec3) (e : EnemyState) (h : e.state ≠ .death) :
    (Enemy.update M dur rand delta pp false e).rotY =
      M.atan2 (pp.x - (Enemy.update M dur rand delta pp false e).pos.x)
              (pp.z - (Enemy.update M dur rand delta pp false e).pos.z) := by
  simp only [Enemy.update, Enemy.mixerUpdate_state]
  rw [if_neg h]
  simp only [Bool.false_eq_true, if_false]
  simp [Enemy.lookAtPlayer, Enemy.clampY]

/-- C9 amended, witness at a concrete input: the default idle enemy with a
live player at (1, 0, 1). -/
theorem C9_amended_witness :
    (Enemy.update demoMath dur1 0 (1/10) ⟨1, 0, 1⟩ false baseEnemy).rotY =
      demoMath.atan2
        (1 - (Enemy.update demoMath dur1 0 (1/10) ⟨1, 0, 1⟩ false baseEnemy).pos.x)
        (1 - (Enemy.update demoMath dur1 0 (1/10) ⟨1, 0, 1⟩ false baseEnemy).pos.z) :=
  C9_amended demoMath dur1 0 (1/10) ⟨1, 0, 1⟩ baseEnemy (by decide)

/-- C10: no behavior reads the chaseRange tunable.  Replacing chaseRange in
an enemy commutes with the per-tick update and with takeDamage (the result
is the same state with only chaseRange replaced), leaves the
enemy-to-player attack step (timer and damage event) unchanged, and
commutes with the player-to-enemy step, whose damage decision and stored
timestamp are unchanged.  Two enemies differing only in chaseRange
therefore make identical transitions, movements and damage applications. -/
theorem C10_chaseRange_noninterference (M : MathLib) (dur : String → ℚ)
    (rand delta amount sysCooldown timer pDmg now lastHit c : ℚ)
    (pp : Vec3) (pd ov : Bool) (e : EnemyState) :
    Enemy.update M dur rand delta pp pd (setChase c e) =
      setChase c (Enemy.update M dur rand delta pp pd e) ∧
    Enemy.takeDamage dur amount (setChase c e) =
      setChase c (Enemy.takeDamage dur amount e) ∧
    enemyAttackStep M sysCooldown delta pp (setChase c e) timer =
      enemyAttackStep M sysCooldown delta pp e timer ∧
    playerHitEnemy M dur pDmg pp now ov (setChase c e) lastHit =
      (setChase c (playerHitEnemy M dur pDmg pp now ov e lastHit).1,
       (playerHitEnemy M dur pDmg pp now ov e lastHit).2) :=
  ⟨Enemy.update_setChase M dur rand delta c pp pd e,
   Enemy.takeDamage_setChase dur amount c e,
   enemyAttackStep_setChase M sysCooldown delta c pp e timer,
   playerHitEnemy_setChase M dur pDmg pp now ov c e lastHit⟩

end CG
